import Mathlib

/-- Python exception kinds raised by the embedded code. -/
inductive PyErr where
  | value (msg : String)
  | key (k : String)
  | index
  | overflow
  | typeErr
  | fuel
  deriving Repr, DecidableEq

/-- Little-endian byte encoding of `v` on `n` bytes,
as `int.to_bytes(n, "little")` does for an in-range value. -/
def leBytes : ℕ → ℕ → List ℕ
  | 0, _ => []
  | n + 1, v => v % 256 :: leBytes n (v / 256)

/-- Little-endian value of a byte list, as `int.from_bytes(bs, "little")`.
Accepts any length, including the empty list (Python gives 0 at EOF). -/
def leVal : List ℕ → ℕ
  | [] => 0
  | b :: rest => b + 256 * leVal rest

/-- Two's-complement decode: `int.from_bytes(bs, "little", signed=True)`. -/
def leValSigned (bs : List ℕ) : ℤ :=
  let u : ℤ := (leVal bs : ℤ)
  let m : ℤ := (2 : ℤ) ^ (8 * bs.length)
  if 2 * u < m then u else u - m

/-- Split a character list at every occurrence of `sep`,
keeping empty pieces, as Python `str.split(sep)` with an explicit
one-character separator. -/
def splitOnChar (sep : Char) : List Char → List (List Char)
  | [] => [[]]
  | c :: rest =>
      match splitOnChar sep rest with
      | [] => if c = sep then [[], []] else [[c]]
      | h :: t => if c = sep then [] :: h :: t else (c :: h) :: t

/-- Python `value.split(sep=c)` on strings. -/
def pySplit (s : String) (sep : Char) : List String :=
  (splitOnChar sep s.toList).map List.asString

/-- Value of a digit list, `none` when a character is not `0`-`9`. -/
def digitsVal : List Char → Option ℕ
  | [] => some 0
  | c :: rest =>
      if c.isDigit then
        (digitsVal rest).map (fun v => (c.toNat - 48) * 10 ^ rest.length + v)
      else none

/-- Python `int(str)`: optional sign followed by at least one digit
(surrounding whitespace not modelled); `ValueError` otherwise. -/
def parsePyInt (s : String) : Except PyErr ℤ :=
  let core (cs : List Char) (neg : Bool) : Except PyErr ℤ :=
    match cs, digitsVal cs with
    | _ :: _, some v => .ok (if neg then -(v : ℤ) else (v : ℤ))
    | _, _ => .error (.value "invalid literal for int")
  match s.toList with
  | '-' :: rest => core rest true
  | '+' :: rest => core rest false
  | cs => core cs false

/-- Python `float(str)` restricted to plain decimal literals
(sign, digits, optional point and fraction digits), returned exactly
as a rational.  `ValueError` otherwise. -/
def parsePyFloat (s : String) : Except PyErr ℚ :=
  let core (cs : List Char) (neg : Bool) : Except PyErr ℚ :=
    match splitOnChar '.' cs with
    | [ip] =>
        match ip, digitsVal ip with
        | _ :: _, some v => .ok (if neg then -(v : ℚ) else (v : ℚ))
        | _, _ => .error (.value "could not convert string to float")
    | [ip, fp] =>
        match ip ++ fp, digitsVal ip, digitsVal fp with
        | _ :: _, some vi, some vf =>
            let a : ℚ := (vi : ℚ) + (vf : ℚ) / 10 ^ fp.length
            .ok (if neg then -a else a)
        | _, _, _ => .error (.value "could not convert string to float")
    | _ => .error (.value "could not convert string to float")
  match s.toList with
  | '-' :: rest => core rest true
  | '+' :: rest => core rest false
  | cs => core cs false

deriving instance DecidableEq for Except

/-- Floor of a rational, computed by floor division of the numerator by
the denominator (kernel-reducible, unlike the `Int.floor` instance). -/
def ratFloor (q : ℚ) : ℤ :=
  Int.fdiv q.num (q.den : ℤ)

/-- Python `int(x)` on a number: truncation toward zero. -/
def pyTrunc (q : ℚ) : ℤ :=
  Int.tdiv q.num (q.den : ℤ)

/-- Round to the nearest integer, ties to even
(CPython `round` / `numpy.round` on exactly representable values). -/
def halfEvenQ (q : ℚ) : ℤ :=
  let f := ratFloor q
  let d := q - (f : ℚ)
  if d < 1 / 2 then f
  else if 1 / 2 < d then f + 1
  else if f % 2 = 0 then f else f + 1

/-- Python `round(q, nd)` on exactly representable decimal values. -/
def pyRoundQ (nd : ℕ) (q : ℚ) : ℚ :=
  (halfEvenQ (q * 10 ^ nd) : ℚ) / 10 ^ nd

/-- CPython `str()` of a float whose value has at most two decimal
places: shortest decimal digits, always at least one fractional digit
(`str(72.0) = "72.0"`, `str(2.2) = "2.2"`, `str(0.05) = "0.05"`). -/
def pyFloatStr (q : ℚ) : String :=
  let sign := if q < 0 then "-" else ""
  let a : ℚ := |q|
  let ip : ℕ := (ratFloor a).toNat
  let fr : ℚ := a - (ip : ℚ)
  if fr = 0 then sign ++ toString ip ++ ".0"
  else if (fr * 10).den = 1 then sign ++ toString ip ++ "." ++ toString (fr * 10).num.toNat
  else sign ++ toString ip ++ "." ++
    (if (fr * 100).num.toNat < 10 then "0" else "") ++ toString (fr * 100).num.toNat

namespace CDXCoordinate

/-- Maximum INT32 value, `CDXCoordinate.CDX_MAX_VALUE`. -/
def CDX_MAX_VALUE : ℤ := 2147483647

/-- Minimum INT32 value, `CDXCoordinate.CDX_MIN_VALUE`. -/
def CDX_MIN_VALUE : ℤ := -2147483648

/-- `CDXCoordinate.from_string`: `int(float(value) * 65536)`; an
out-of-range result is only logged, not clamped. -/
def from_string (value : String) : Except PyErr ℤ :=
  (parsePyFloat value).map (fun q => pyTrunc (q * 65536))

/-- `CDXCoordinate.to_bytes`: clamp to the INT32 range, then 4-byte
little-endian two's complement. -/
def to_bytes (coordinate : ℤ) : List ℕ :=
  if coordinate > CDX_MAX_VALUE then leBytes 4 ((CDX_MAX_VALUE % 2 ^ 32).toNat)
  else if coordinate < CDX_MIN_VALUE then leBytes 4 ((CDX_MIN_VALUE % 2 ^ 32).toNat)
  else leBytes 4 ((coordinate % 2 ^ 32).toNat)

/-- `CDXCoordinate.from_bytes`: signed little-endian decode. -/
def from_bytes (property_bytes : List ℕ) : ℤ :=
  leValSigned property_bytes

/-- `CDXCoordinate.to_property_value`: `str(round(coordinate / 65536, 2))`. -/
def to_property_value (coordinate : ℤ) : String :=
  pyFloatStr (pyRoundQ 2 ((coordinate : ℚ) / 65536))

end CDXCoordinate

/-- `CDXPoint2D`: an x and a y coordinate (stored in CDX units). -/
structure CDXPoint2D where
  x : ℤ
  y : ℤ
  deriving Repr, DecidableEq

namespace CDXPoint2D

/-- `CDXPoint2D.from_bytes`: y is decoded from bytes 0-3, x from bytes 4-7. -/
def from_bytes (property_bytes : List ℕ) : CDXPoint2D :=
  let y := CDXCoordinate.from_bytes (property_bytes.take 4)
  let x := CDXCoordinate.from_bytes ((property_bytes.drop 4).take 4)
  ⟨x, y⟩

/-- `CDXPoint2D.from_string`: y is parsed from the second
space-separated field, x from the first. -/
def from_string (value : String) : Except PyErr CDXPoint2D := do
  let coords := pySplit value ' '
  match coords.get? 1, coords.get? 0 with
  | some sy, some sx =>
      let y ← CDXCoordinate.from_string sy
      let x ← CDXCoordinate.from_string sx
      .ok ⟨x, y⟩
  | _, _ => .error .index

/-- `CDXPoint2D.to_bytes`: y bytes then x bytes. -/
def to_bytes (p : CDXPoint2D) : List ℕ :=
  CDXCoordinate.to_bytes p.y ++ CDXCoordinate.to_bytes p.x

/-- `CDXPoint2D.to_property_value`: x text, a space, y text. -/
def to_property_value (p : CDXPoint2D) : String :=
  CDXCoordinate.to_property_value p.x ++ " " ++ CDXCoordinate.to_property_value p.y

end CDXPoint2D

/-- `CDXPoint3D`: x, y and z coordinates (stored in CDX units). -/
structure CDXPoint3D where
  x : ℤ
  y : ℤ
  z : ℤ
  deriving Repr, DecidableEq

namespace CDXPoint3D

/-- `CDXPoint3D.from_bytes`: z from bytes 0-3, y from 4-7, x from 8-11. -/
def from_bytes (property_bytes : List ℕ) : CDXPoint3D :=
  let z := CDXCoordinate.from_bytes (property_bytes.take 4)
  let y := CDXCoordinate.from_bytes ((property_bytes.drop 4).take 4)
  let x := CDXCoordinate.from_bytes ((property_bytes.drop 8).take 4)
  ⟨x, y, z⟩

/-- `CDXPoint3D.from_string`: z from the third space-separated field,
y from the second, x from the first. -/
def from_string (value : String) : Except PyErr CDXPoint3D := do
  let coords := pySplit value ' '
  match coords.get? 2, coords.get? 1, coords.get? 0 with
  | some sz, some sy, some sx =>
      let z ← CDXCoordinate.from_string sz
      let y ← CDXCoordinate.from_string sy
      let x ← CDXCoordinate.from_string sx
      .ok ⟨x, y, z⟩
  | _, _, _ => .error .index

/-- `CDXPoint3D.to_bytes`: z bytes, y bytes, x bytes. -/
def to_bytes (p : CDXPoint3D) : List ℕ :=
  CDXCoordinate.to_bytes p.z ++ CDXCoordinate.to_bytes p.y ++ CDXCoordinate.to_bytes p.x

/-- `CDXPoint3D.to_property_value` emits, in this order, the z text,
the y text and the x text (the source comments that it deliberately
deviates from the published x-y-z ordering). -/
def to_property_value (p : CDXPoint3D) : String :=
  CDXCoordinate.to_property_value p.z ++ " " ++ CDXCoordinate.to_property_value p.y
    ++ " " ++ CDXCoordinate.to_property_value p.x

end CDXPoint3D

/-- Wrapper for the fixed-width integer classes of `chemdraw_types.py`. -/
structure FixedInt where
  value : ℤ
  deriving Repr, DecidableEq

/-- Constructor of `INT8`: the source guard is the Python chained
comparison `-128 > value > 127`, that is
`(-128 > value) and (value > 127)`. -/
def INT8.init (value : ℤ) : Except PyErr FixedInt :=
  if -128 > value ∧ value > 127 then
    .error (.value "Needs to be a 16-bit int in range -128 to 127.")
  else .ok ⟨value⟩

/-- `INT8.from_string`: `INT8(int(value))`. -/
def INT8.from_string (value : String) : Except PyErr FixedInt := do
  INT8.init (← parsePyInt value)

/-- Constructor of `UINT8`: Python chained comparison `0 > value > 255`. -/
def UINT8.init (value : ℤ) : Except PyErr FixedInt :=
  if 0 > value ∧ value > 255 then
    .error (.value "Needs to be a 8-bit uint in range 0 to 255.")
  else .ok ⟨value⟩

/-- `UINT8.from_string`: `UINT8(int(value))`. -/
def UINT8.from_string (value : String) : Except PyErr FixedInt := do
  UINT8.init (← parsePyInt value)

/-- Constructor of `INT16`: Python chained comparison `-32768 > value > 32767`. -/
def INT16.init (value : ℤ) : Except PyErr FixedInt :=
  if -32768 > value ∧ value > 32767 then
    .error (.value "Needs to be a 16-bit int in range -32768 to 32767.")
  else .ok ⟨value⟩

/-- `INT16.from_string`: `INT16(int(value))`. -/
def INT16.from_string (value : String) : Except PyErr FixedInt := do
  INT16.init (← parsePyInt value)

/-- Constructor of `UINT16`: Python chained comparison `0 > value > 65535`. -/
def UINT16.init (value : ℤ) : Except PyErr FixedInt :=
  if 0 > value ∧ value > 65535 then
    .error (.value "Needs to be a 16-bit uint in range 0 to 65535.")
  else .ok ⟨value⟩

/-- `UINT16.from_string`: `UINT16(int(value))`. -/
def UINT16.from_string (value : String) : Except PyErr FixedInt := do
  UINT16.init (← parsePyInt value)

/-- Constructor of `INT32`: Python chained comparison
`-2147483648 > value > 2147483647`. -/
def INT32.init (value : ℤ) : Except PyErr FixedInt :=
  if -2147483648 > value ∧ value > 2147483647 then
    .error (.value "Needs to be a 16-bit int in range -32768 to 32767.")
  else .ok ⟨value⟩

/-- `INT32.from_string`: `INT32(int(value))`. -/
def INT32.from_string (value : String) : Except PyErr FixedInt := do
  INT32.init (← parsePyInt value)

/-- Constructor of `UINT32`: Python chained comparison `0 > value > 4294967295`. -/
def UINT32.init (value : ℤ) : Except PyErr FixedInt :=
  if 0 > value ∧ value > 4294967295 then
    .error (.value "Needs to be a 32-bit uint in range 0 to 4294967295.")
  else .ok ⟨value⟩

/-- `UINT32.from_string`: `UINT32(int(value))`. -/
def UINT32.from_string (value : String) : Except PyErr FixedInt := do
  UINT32.init (← parsePyInt value)

namespace CDXBooleanImplied

/-- `CDXBooleanImplied.from_string`: only `"yes"` and `"no"` are accepted. -/
def from_string (value : String) : Except PyErr Bool :=
  if value = "yes" then .ok true
  else if value = "no" then .ok false
  else .error (.value "Found invalid value for boolean type.")

/-- `CDXBooleanImplied.to_bytes`: a false value raises `ValueError`;
a true value encodes as the empty payload. -/
def to_bytes (bool_value : Bool) : Except PyErr (List ℕ) :=
  if !bool_value then
    .error (.value "A BooleanImplied with value False should not be written to cdx file.")
  else .ok []

/-- `CDXBooleanImplied.from_bytes`: only a zero-length payload is valid
and it decodes to true. -/
def from_bytes (property_bytes : List ℕ) : Except PyErr Bool :=
  if property_bytes.length ≠ 0 then
    .error (.value "A BooleanImplied should be 0-length.")
  else .ok true

end CDXBooleanImplied

/-- A random-access byte stream with a cursor, as `io.BytesIO`. -/
structure Strm where
  data : List ℕ
  pos : ℕ
  deriving Repr, DecidableEq

/-- `BytesIO.read(n)`: returns up to `n` bytes and advances the cursor
by the number of bytes actually read. -/
def Strm.read (s : Strm) (n : ℕ) : List ℕ × Strm :=
  ((s.data.drop s.pos).take n, ⟨s.data, min (s.pos + n) s.data.length⟩)

/-- `ChemDrawDocument._type_to_stream`, acting on the payload bytes of a
property: a 2-byte little-endian length when at most 65534 bytes,
otherwise the marker `FF FF` followed by a 4-byte little-endian length;
`int.to_bytes(4, ...)` raises `OverflowError` at 2^32. -/
def type_to_stream (prop_bytes : List ℕ) : Except PyErr (List ℕ) :=
  let length := prop_bytes.length
  if length ≤ 65534 then .ok (leBytes 2 length ++ prop_bytes)
  else if length < 2 ^ 32 then .ok (255 :: 255 :: leBytes 4 length ++ prop_bytes)
  else .error .overflow

/-- Length reading of `ChemDrawDocument._read_attributes` (lines
124-126): a 2-byte length, re-read as a 4-byte length when the 2-byte
value is `0xFFFF`. -/
def read_prop_length (s : Strm) : ℕ × Strm :=
  let r := s.read 2
  let length := leVal r.1
  if length = 0xFFFF then
    let r4 := r.2.read 4
    (leVal r4.1, r4.2)
  else (length, r.2)

/-- CDX header constant `ChemDrawDocument.HEADER` (22 bytes). -/
def cdxHeader : List ℕ :=
  [0x56, 0x6A, 0x43, 0x44, 0x30, 0x31, 0x30, 0x30, 0x04, 0x03, 0x02, 0x01,
   0x00, 0x00, 0x00, 0x00, 0x00, 0x00, 0x00, 0x00, 0x00, 0x00]

/-- An element built by the binary reader.  `info` is `some (tag, id)`
for objects created by `_element_from_bytes`; the root `CDXML` element
has `info = none` because `from_bytes` never stores the document id it
reads.  Attribute payloads are kept raw (tag, bytes). -/
inductive RNode where
  | mk (info : Option (ℕ × ℕ)) (attrs : List (ℕ × List ℕ)) (children : List RNode)

/-- The tag catalogs: membership tests for object tags
(`ChemDrawDocument.CDX_OBJECTS`) and property tags
(`ChemDrawDocument.CDX_PROPERTIES`). -/
structure TagCatalog where
  objTags : ℕ → Bool
  propTags : ℕ → Bool

/-- Inner loop of `_read_attributes` that skips unknown property tags
(bit 15 clear, not in the catalog, not zero): reads a 2-byte length and
discards that many bytes, until a zero, object or known tag appears.
Returns the next tag and the stream after it. -/
def skipUnknownProps (cat : TagCatalog) : ℕ → ℕ → Strm → ℕ × Strm
  | 0, tag_id, s => (tag_id, s)
  | fuel + 1, tag_id, s =>
      if tag_id ≠ 0 ∧ tag_id >>> 15 &&& 1 = 0 ∧ ¬cat.propTags tag_id then
        let rl := s.read 2
        let rp := rl.2.read (leVal rl.1)
        let rt := rp.2.read 2
        skipUnknownProps cat fuel (leVal rt.1) rt.2
      else (tag_id, s)

/-- `ChemDrawDocument._read_attributes`: reads properties while the tag
is in the property catalog, skipping unknown non-zero attribute tags,
and finally seeks back 2 bytes so the caller re-reads the terminating
tag.  The per-kind value decoding (dispatched through the YAML catalog,
which is not part of the sources) is abstracted: each property is kept
as its raw payload. -/
def read_attributes (cat : TagCatalog) : ℕ → List (ℕ × List ℕ) → ℕ → Strm →
    List (ℕ × List ℕ) × Strm
  | 0, acc, _, s => (acc.reverse, s)
  | fuel + 1, acc, tag_id, s =>
      if cat.propTags tag_id then
        let rl := read_prop_length s
        let rp := rl.2.read rl.1
        let acc := (tag_id, rp.1) :: acc
        let rt := rp.2.read 2
        let next := skipUnknownProps cat fuel (leVal rt.1) rt.2
        read_attributes cat fuel acc next.1 next.2
      else
        (acc.reverse, ⟨s.data, s.pos - 2⟩)

/-- Run `read_attributes` from the current stream position, reading the
first tag itself, as the Python function does. -/
def readAttributesFrom (cat : TagCatalog) (fuel : ℕ) (s : Strm) :
    List (ℕ × List ℕ) × Strm :=
  let rt := s.read 2
  read_attributes cat fuel [] (leVal rt.1) rt.2

/-- A node under construction on the parent stack: its tag and id
(`none` for the root), attributes, and the children attached so far. -/
structure RFrame where
  info : Option (ℕ × ℕ)
  attrs : List (ℕ × List ℕ)
  children : List RNode

/-- Close a frame into a finished node. -/
def RFrame.finish (f : RFrame) : RNode :=
  .mk f.info f.attrs f.children

/-- Attach a finished node as last child of the top frame. -/
def attachTop (n : RNode) : List RFrame → List RFrame
  | [] => []
  | top :: rest => { top with children := top.children ++ [n] } :: rest

/-- Object loop of `ChemDrawDocument.from_bytes` together with its
inner zero-tag popping loop.  `mode = true` means the current tag has
just been read and the outer `while tag_id in CDX_OBJECTS` condition is
being checked; `mode = false` means a zero tag was read and the inner
`while tag_id == 0` popping loop is running.  `popped` holds the root
node once the root frame has been popped.  Returns `some root` on the
explicit `return ChemDrawDocument(cdxml)`, and `none` when the outer
loop exits and the Python function falls through, returning `None`. -/
def objLoop (cat : TagCatalog) : ℕ → Bool → ℕ → List RFrame → Option RNode → Strm →
    Except PyErr (Option RNode)
  | 0, _, _, _, _, _ => .error .fuel
  | fuel + 1, true, tag_id, stack, popped, s =>
      if cat.objTags tag_id then
        match stack with
        | [] => .error .index
        | top :: rest =>
            let rid := s.read 4
            let ra := readAttributesFrom cat fuel rid.2
            let el : RNode := .mk (some (tag_id, leVal rid.1)) ra.1 []
            let rt := ra.2.read 2
            let tag2 := leVal rt.1
            if tag2 = 0 then
              objLoop cat fuel false 0 (attachTop el (top :: rest)) popped rt.2
            else
              objLoop cat fuel true tag2 (⟨some (tag_id, leVal rid.1), ra.1, []⟩ :: top :: rest)
                popped rt.2
      else .ok none
  | fuel + 1, false, _, stack, popped, s =>
      let rt := s.read 2
      let tag_id := leVal rt.1
      if tag_id = 0 then
        match stack with
        | [] => .ok popped
        | [root] => objLoop cat fuel false 0 [] (some root.finish) rt.2
        | top :: parent :: rest =>
            objLoop cat fuel false 0 (attachTop top.finish (parent :: rest)) popped rt.2
      else
        objLoop cat fuel true tag_id stack popped rt.2

/-- `ChemDrawDocument.from_bytes`: checks the header, reads the
document tag (with the legacy fallback), the document id (which is
logged but never stored on the root), the root attributes, and then the
object loop.  The `.ok none` outcome is the Python function falling off
the end of its loop and implicitly returning `None`. -/
def chemDrawDocument_from_bytes (cat : TagCatalog) (data : List ℕ) :
    Except PyErr (Option RNode) :=
  let s : Strm := ⟨data, 0⟩
  let rh := s.read 22
  if rh.1 ≠ cdxHeader then .error (.value "File is not a valid cdx file. Invalid header found.")
  else
    let rt := rh.2.read 2
    let legacy := rt.1 ≠ [0x00, 0x80]
    let s1 := if legacy then (rt.2.read 1).2 else rt.2
    let rid := s1.read 4
    let s2 := if legacy then (rid.2.read 23).2 else rid.2
    let fuel := data.length + 4
    let ra := readAttributesFrom cat fuel s2
    let root : RFrame := ⟨none, ra.1, []⟩
    let rtag := ra.2.read 2
    objLoop cat fuel true (leVal rtag.1) [root] none rtag.2

/-- Modelled from the spec: the YAML tag catalogs (`cdx_objects.yml`,
`cdx_properties.yml`) are not part of the sources.  Per the spec the
16-bit tag space is partitioned by bit 15 (set for object tags, clear
for attribute tags) and the sentinel `0x0000` belongs to neither
catalog.  This maximal catalog makes every bit-15-set tag an object tag
and every other nonzero 16-bit tag an attribute tag. -/
def specCatalog : TagCatalog where
  objTags := fun t => decide (0x8000 ≤ t ∧ t ≤ 0xFFFF)
  propTags := fun t => decide (1 ≤ t ∧ t ≤ 0x7FFF)

/-- The 34-byte empty document of the spec scenario:
header, document tag `00 80`, id `01 00 00 00`, `00 00`, `00 00`. -/
def emptyDocBytes : List ℕ :=
  cdxHeader ++ [0x00, 0x80] ++ [0x01, 0x00, 0x00, 0x00] ++ [0x00, 0x00] ++ [0x00, 0x00]

/-- An XML attribute value as the styler uses it.  ElementTree stores
strings; the styler parses `p` attributes into two floats and
`BoundingBox` attributes into four floats and writes them back, so
those two are modelled directly as real vectors, abstracting the
float-to-string codec; every other attribute stays a string. -/
inductive AVal where
  | str (v : String)
  | pt2 (x y : ℝ)
  | rect (a b c d : ℝ)

/-- Attribute mapping of an element, in insertion order, as an
ElementTree `attrib` dict. -/
abbrev Attrs := List (String × AVal)

/-- Dict lookup `attrib[k]` (as an `Option`). -/
def lookupA (l : Attrs) (k : String) : Option AVal :=
  (List.find? (fun p => p.1 == k) l).map (fun p => p.2)

/-- Dict store `attrib[k] = v`: update in place when the key exists,
append otherwise (Python dicts preserve insertion order). -/
def setA (l : Attrs) (k : String) (v : AVal) : Attrs :=
  if List.any l (fun p => p.1 == k) then
    List.map (fun p => if p.1 == k then (k, v) else p) l
  else l ++ [(k, v)]

/-- Deleting every attribute whose name is not in `keep`
(the `set(attrib) - set(whitelist)` + `del` idiom of the styler). -/
def filterKeys (l : Attrs) (keep : List String) : Attrs :=
  List.filter (fun p => keep.contains p.1) l

/-- Read a string attribute: `KeyError` when missing. -/
def getStr (l : Attrs) (k : String) : Except PyErr String :=
  match lookupA l k with
  | some (.str v) => .ok v
  | some _ => .error .typeErr
  | none => .error (.key k)

/-- Read a `p` attribute as two floats
(`[float(x) for x in attrib["p"].split(" ")]`): `KeyError` when missing. -/
def getPt (l : Attrs) : Except PyErr (ℝ × ℝ) :=
  match lookupA l "p" with
  | some (.pt2 x y) => .ok (x, y)
  | some _ => .error .typeErr
  | none => .error (.key "p")

/-- Read a `BoundingBox` attribute as four floats: `KeyError` when missing. -/
def getRect (l : Attrs) : Except PyErr (ℝ × ℝ × ℝ × ℝ) :=
  match lookupA l "BoundingBox" with
  | some (.rect a b c d) => .ok (a, b, c, d)
  | some _ => .error .typeErr
  | none => .error (.key "BoundingBox")

/-- Read an attribute and parse it as an int, `int(attrib[k])`. -/
def getIntA (l : Attrs) (k : String) : Except PyErr ℤ := do
  parsePyInt (← getStr l k)

/-- An `s` (styled text run) element. -/
structure SEl where
  attrs : Attrs
  text : String

/-- A `t` (atom label) element with its `s` children. -/
structure TEl where
  attrs : Attrs
  ss : List SEl

/-- An `n` (atom) element with its `t` children. -/
structure NAtom where
  attrs : Attrs
  ts : List TEl

/-- A `b` (bond) element. -/
structure BondEl where
  attrs : Attrs

/-- A `fragment` element with its atom and bond children. -/
structure Frag where
  attrs : Attrs
  nodes : List NAtom
  bonds : List BondEl

/-- A CDXML document for the styler: the root element's attributes and
the `fragment` elements in document order (`root.iter('fragment')`). -/
structure SDoc where
  attrs : Attrs
  fragments : List Frag

/-- A style preset: the flat mapping built by `CDXMLStyler.get_style`,
one string per recognized key. -/
structure Style where
  BondSpacing : String
  BondLength : String
  BoldWidth : String
  LineWidth : String
  MarginWidth : String
  HashSpacing : String
  CaptionSize : String
  LabelSize : String
  LabelFace : String
  LabelFont : String
  HideImplicitHydrogens : String

namespace CDXMLStyler

/-- `CDXMLStyler.get_style`: the two built-in presets. -/
def get_style (style_name : String) : Except PyErr Style :=
  if style_name = "ACS 1996" then
    .ok ⟨"18", "14.40", "2", "0.60", "1.60", "2.50", "10", "10", "96", "3", "no"⟩
  else if style_name = "Wiley" then
    .ok ⟨"18", "17", "2.6", "0.75", "2", "2.6", "12", "12", "96", "3", "no"⟩
  else .error (.value "not a valid style")

/-- The bond attribute whitelist of `get_coords_and_mapping`. -/
def bond_attributes : List String :=
  ["id", "Z", "B", "E", "BS", "Order", "BondCircularOrdering", "Display"]

/-- The node attribute whitelist of `_apply_style`. -/
def node_attributes : List String :=
  ["id", "p", "Z", "AS", "Element", "NumHydrogens", "Geometry", "NeedsClean"]

/-- The `t` attribute whitelist of `_apply_style`. -/
def t_attributes : List String :=
  ["p", "BoundingBox", "LabelJustification", "LabelAlignment"]

/-- Round a real to the nearest integer, ties to even (`numpy.round`). -/
noncomputable def halfEvenR (x : ℝ) : ℤ :=
  let f := ⌊x⌋
  let d := x - (f : ℝ)
  if d < 1 / 2 then f
  else if 1 / 2 < d then f + 1
  else if f % 2 = 0 then f else f + 1

/-- `numpy.round(x, nd)` over the reals. -/
noncomputable def pyRoundR (nd : ℕ) (x : ℝ) : ℝ :=
  (halfEvenR (x * 10 ^ nd) : ℝ) / 10 ^ nd

/-- Maximum of a list of reals (`numpy.max`; callers guarantee the list
is nonempty, the empty case is junk). -/
noncomputable def listMaxR : List ℝ → ℝ
  | [] => 0
  | x :: xs => xs.foldl max x

/-- Minimum of a list of reals (`numpy.min`). -/
noncomputable def listMinR : List ℝ → ℝ
  | [] => 0
  | x :: xs => xs.foldl min x

/-- `CDXMLStyler.get_center`: midpoint of the axis-aligned bounding box
of the coordinates. -/
noncomputable def get_center (all_coords : List (ℝ × ℝ)) : ℝ × ℝ :=
  let xs := all_coords.map (fun c => c.1)
  let ys := all_coords.map (fun c => c.2)
  ((listMinR xs + listMaxR xs) / 2, (listMinR ys + listMaxR ys) / 2)

/-- `CDXMLStyler.translate`: shift the scaled coordinates so their
bounding-box center coincides with the original center. -/
noncomputable def translate (all_coords scaled_coords : List (ℝ × ℝ)) : List (ℝ × ℝ) :=
  let c := get_center all_coords
  let sc := get_center scaled_coords
  let xt := c.1 - sc.1
  let yt := c.2 - sc.2
  scaled_coords.map (fun p => (p.1 + xt, p.2 + yt))

/-- Euclidean norm of the difference of two 2D points
(`numpy.linalg.norm(a - b, axis=1)` rowwise). -/
noncomputable def npNorm (a b : ℝ × ℝ) : ℝ :=
  Real.sqrt ((a.1 - b.1) ^ 2 + (a.2 - b.2) ^ 2)

/-- Resolve each bond's endpoint coordinates through the node-id
mapping; a bond naming an unknown node id raises `KeyError`. -/
def bondEndpoints (all_coords : List (ℝ × ℝ)) (mapping : List (ℤ × ℕ)) :
    List (ℤ × ℤ) → Except PyErr (List ((ℝ × ℝ) × (ℝ × ℝ)))
  | [] => .ok []
  | (s, e) :: rest =>
      match (List.find? (fun p => p.1 == s) mapping).map (fun p => p.2),
          (List.find? (fun p => p.1 == e) mapping).map (fun p => p.2) with
      | some i, some j =>
          match all_coords.get? i, all_coords.get? j with
          | some a, some b => do
              let more ← bondEndpoints all_coords mapping rest
              .ok ((a, b) :: more)
          | _, _ => .error .index
      | _, _ => .error (.key "bond endpoint")

/-- `CDXMLStyler.get_avg_bl`: mean Euclidean bond length, rounded to
one decimal. -/
noncomputable def get_avg_bl (all_coords : List (ℝ × ℝ)) (bonds : List (ℤ × ℤ))
    (node_id_mapping : List (ℤ × ℕ)) : Except PyErr ℝ := do
  let pairs ← bondEndpoints all_coords node_id_mapping bonds
  let bond_length := pairs.map (fun ab => npNorm ab.1 ab.2)
  .ok (pyRoundR 1 (bond_length.sum / (bond_length.length : ℝ)))

/-- Python dict insert for the node-id mapping. -/
def dictInsert (l : List (ℤ × ℕ)) (k : ℤ) (v : ℕ) : List (ℤ × ℕ) :=
  if List.any l (fun p => p.1 == k) then
    List.map (fun p => if p.1 == k then (k, v) else p) l
  else l ++ [(k, v)]

/-- Label collection of `get_coords_and_mapping`: for every `t` child
with a `p` attribute, read the label position (and its `BoundingBox`,
which the source reads into `label_bbs` and never uses). -/
def collectLabels : List TEl → Except PyErr (List (ℝ × ℝ))
  | [] => .ok []
  | t :: rest =>
      match lookupA t.attrs "p" with
      | some (.pt2 x y) => do
          let _ ← getRect t.attrs
          let more ← collectLabels rest
          .ok ((x, y) :: more)
      | some _ => .error .typeErr
      | none => collectLabels rest

/-- Node collection of `get_coords_and_mapping`: positions, id-to-index
mapping, label positions, in document order. -/
def collectNodes : List NAtom → ℕ → List (ℤ × ℕ) →
    Except PyErr (List (ℝ × ℝ) × List (ℤ × ℕ) × List (ℝ × ℝ))
  | [], _, mapping => .ok ([], mapping, [])
  | n :: rest, idx, mapping => do
      let xy ← getPt n.attrs
      let nid ← getIntA n.attrs "id"
      let labels ← collectLabels n.ts
      let r ← collectNodes rest (idx + 1) (dictInsert mapping nid idx)
      .ok (xy :: r.1, r.2.1, labels ++ r.2.2)

/-- Bond collection of `get_coords_and_mapping`: `(start, end)` pairs,
and the bonds with every attribute outside the whitelist deleted. -/
def stripBonds : List BondEl → Except PyErr (List (ℤ × ℤ) × List BondEl)
  | [] => .ok ([], [])
  | b :: rest => do
      let s ← getIntA b.attrs "B"
      let e ← getIntA b.attrs "E"
      let r ← stripBonds rest
      .ok ((s, e) :: r.1, ⟨filterKeys b.attrs bond_attributes⟩ :: r.2)

/-- `CDXMLStyler.get_coords_and_mapping`: collect coordinates, node-id
mapping, bonds and label coordinates, stripping non-whitelisted bond
attributes as a side effect (returned here as the updated fragment). -/
def get_coords_and_mapping (f : Frag) :
    Except PyErr (List (ℝ × ℝ) × List (ℤ × ℕ) × List (ℤ × ℤ) × List (ℝ × ℝ) × Frag) := do
  let cn ← collectNodes f.nodes 0 []
  let bb ← stripBonds f.bonds
  .ok (cn.1, cn.2.1, bb.1, cn.2.2, { f with bonds := bb.2 })

/-- Node positions for `add_missing_bounding_box`; a node without `p`
raises `ValueError("Molecule has no coordinates")`. -/
def collectBBCoords : List NAtom → Except PyErr (List (ℝ × ℝ))
  | [] => .ok []
  | n :: rest =>
      match lookupA n.attrs "p" with
      | some (.pt2 x y) => do
          let more ← collectBBCoords rest
          .ok ((x, y) :: more)
      | some _ => .error .typeErr
      | none => .error (.value "Molecule has no coordinates")

/-- `CDXMLStyler.add_missing_bounding_box`: when the fragment has no
`BoundingBox`, compute one from the node positions. -/
noncomputable def add_missing_bounding_box (f : Frag) : Except PyErr Frag :=
  match lookupA f.attrs "BoundingBox" with
  | some _ => .ok f
  | none => do
      let coords ← collectBBCoords f.nodes
      let xs := coords.map (fun c => c.1)
      let ys := coords.map (fun c => c.2)
      let a := setA f.attrs "BoundingBox"
        (.rect (listMinR xs) (listMinR ys) (listMaxR xs) (listMaxR ys))
      .ok { f with attrs := a }

/-- `CDXMLStyler.fix_bounding_box`: scale the fragment `BoundingBox`,
recenter it on its original center and round to two decimals. -/
noncomputable def fix_bounding_box (f : Frag) (scaling_factor : ℝ) : Except PyErr Frag := do
  let bb ← getRect f.attrs
  let (b0, b1, b2, b3) := bb
  let s0 := b0 * scaling_factor
  let s1 := b1 * scaling_factor
  let s2 := b2 * scaling_factor
  let s3 := b3 * scaling_factor
  let x_translate := (b0 + b2) / 2 - (s0 + s2) / 2
  let y_translate := (b1 + b3) / 2 - (s1 + s3) / 2
  let a := setA f.attrs "BoundingBox"
    (.rect (pyRoundR 2 (s0 + x_translate)) (pyRoundR 2 (s1 + y_translate))
      (pyRoundR 2 (s2 + x_translate)) (pyRoundR 2 (s3 + y_translate)))
  .ok { f with attrs := a }

/-- Per-run restyling: set `size`, `face`, `font` from the preset. -/
def restyleS (style : Style) (s : SEl) : SEl :=
  { s with attrs := setA (setA (setA s.attrs "size" (.str style.LabelSize)) "face" (.str style.LabelFace)) "font" (.str style.LabelFont) }

/-- The implicit-hydrogen rewrite of one label run (`_apply_style`,
lines 172-192): append `H`/`H<n>` when hydrogens become visible,
truncate to the leading one- or two-letter element symbol when they are
hidden again (`txt[1]` raises `IndexError` on labels shorter than 2). -/
def toggleHText (hideNew : String) (numH : ℤ) (numHRaw : String) (txt : String) :
    Except PyErr String :=
  if hideNew = "no" then
    if numH = 1 then .ok (txt ++ "H")
    else .ok (txt ++ "H" ++ numHRaw)
  else
    match txt.toList with
    | a :: b :: _ => if b = 'H' then .ok (String.mk [a]) else .ok (String.mk [a, b])
    | _ => .error .index

/-- Processing of one `s` element inside the multi-atom node loop:
restyle, then apply the implicit-hydrogen rewrite when the document
flag changed and the (already stripped) node has `NumHydrogens > 0`. -/
def processS (style : Style) (hChanged : Bool) (nodeAttrs : Attrs) (s : SEl) :
    Except PyErr SEl := do
  let s := restyleS style s
  if hChanged ∧ (lookupA nodeAttrs "NumHydrogens").isSome then
    let raw ← getStr nodeAttrs "NumHydrogens"
    let n ← parsePyInt raw
    if n > 0 then
      let txt ← toggleHText style.HideImplicitHydrogens n raw s.text
      .ok { s with text := txt }
    else .ok s
  else .ok s

/-- Sequential processing of the `s` children of a `t` element. -/
def processSList (style : Style) (hChanged : Bool) (nodeAttrs : Attrs) :
    List SEl → Except PyErr (List SEl)
  | [] => .ok []
  | s :: rest => do
      let s ← processS style hChanged nodeAttrs s
      let more ← processSList style hChanged nodeAttrs rest
      .ok (s :: more)

/-- Processing of one `t` element inside the multi-atom node loop:
rewrite its label position from `final_labels` when it has `p`, strip
non-whitelisted attributes, process the `s` children.  Returns the
updated element and the advanced label index. -/
def processT (style : Style) (hChanged : Bool) (nodeAttrs : Attrs)
    (final_labels : List (ℝ × ℝ)) (label_idx : ℕ) (t : TEl) : Except PyErr (TEl × ℕ) := do
  let pr ← (if (lookupA t.attrs "p").isSome then
      match final_labels.get? label_idx with
      | some xy => .ok (setA t.attrs "p" (.pt2 xy.1 xy.2), label_idx + 1)
      | none => .error .index
    else .ok (t.attrs, label_idx))
  let attrs := filterKeys pr.1 t_attributes
  let ss ← processSList style hChanged nodeAttrs t.ss
  .ok (⟨attrs, ss⟩, pr.2)

/-- Sequential processing of the `t` children of a node. -/
def processTList (style : Style) (hChanged : Bool) (nodeAttrs : Attrs)
    (final_labels : List (ℝ × ℝ)) : ℕ → List TEl → Except PyErr (List TEl × ℕ)
  | label_idx, [] => .ok ([], label_idx)
  | label_idx, t :: rest => do
      let r ← processT style hChanged nodeAttrs final_labels label_idx t
      let more ← processTList style hChanged nodeAttrs final_labels r.2 rest
      .ok (r.1 :: more.1, more.2)

/-- Node loop of `_apply_style` for multi-atom fragments: set the new
position, strip non-whitelisted node attributes, then process the `t`
children (which read `NumHydrogens` from the stripped attributes). -/
def processNodes (style : Style) (hChanged : Bool)
    (final_coords final_labels : List (ℝ × ℝ)) : ℕ → ℕ → List NAtom →
    Except PyErr (List NAtom)
  | _, _, [] => .ok []
  | idx, label_idx, n :: rest => do
      match final_coords.get? idx with
      | none => .error .index
      | some xy =>
          let attrs := filterKeys (setA n.attrs "p" (.pt2 xy.1 xy.2)) node_attributes
          let r ← processTList style hChanged attrs final_labels label_idx n.ts
          let more ← processNodes style hChanged final_coords final_labels
            (idx + 1) r.2 rest
          .ok (⟨attrs, r.1⟩ :: more)

/-- Per-fragment processing of `_apply_style`.  Returns the updated
fragment and `true` when the single-atom branch was taken (the source
then executes `return root`, skipping all remaining fragments). -/
noncomputable def processFrag (style : Style) (hChanged : Bool) (bond_length : ℝ)
    (f : Frag) : Except PyErr (Frag × Bool) := do
  let _ ← getStr f.attrs "id"
  let f ← add_missing_bounding_box f
  let r ← get_coords_and_mapping f
  let (all_coords, node_id_mapping, bonds, label_coords, f) := r
  let num_nodes := node_id_mapping.length
  if num_nodes = 0 then .error (.value "Molecule has no Atoms")
  else if num_nodes = 1 then
    .ok ({ f with nodes := f.nodes.map (fun n =>
      { n with ts := n.ts.map (fun t => { t with ss := t.ss.map (restyleS style) }) }) }, true)
  else do
    let avg_bl ← get_avg_bl all_coords bonds node_id_mapping
    let scaling_factor := bond_length / avg_bl
    let scaled_coords := all_coords.map (fun c => (c.1 * scaling_factor, c.2 * scaling_factor))
    let final_coords := translate all_coords scaled_coords
    let final_labels :=
      if label_coords.length > 0 then
        translate label_coords
          (label_coords.map (fun c => (c.1 * scaling_factor, c.2 * scaling_factor)))
      else []
    let f ← fix_bounding_box f scaling_factor
    let nodes ← processNodes style hChanged final_coords final_labels 0 0 f.nodes
    .ok ({ f with nodes := nodes }, false)

/-- The fragment loop of `_apply_style`: fragments are processed in
document order; the single-atom branch returns immediately, leaving all
following fragments untouched.  The boolean records whether that early
return happened. -/
noncomputable def processFrags (style : Style) (hChanged : Bool) (bond_length : ℝ) :
    List Frag → Except PyErr (List Frag × Bool)
  | [] => .ok ([], false)
  | f :: rest => do
      let r ← processFrag style hChanged bond_length f
      if r.2 then .ok (r.1 :: rest, true)
      else do
        let more ← processFrags style hChanged bond_length rest
        .ok (r.1 :: more.1, more.2)

/-- `CDXMLStyler._apply_style`: set the ten recognized keys on the root
unconditionally, read the previous `HideImplicitHydrogens` (an uncaught
`KeyError` when the root lacks it), set the new one, then run the
fragment loop; `KeyError` inside the fragment loop is converted to
`ValueError("Molecule has no coordinates")`. -/
noncomputable def apply_style (style : Style) (root : SDoc) : Except PyErr SDoc :=
  let attrs := setA root.attrs "BondSpacing" (.str style.BondSpacing)
  let attrs := setA attrs "BondLength" (.str style.BondLength)
  let attrs := setA attrs "BoldWidth" (.str style.BoldWidth)
  let attrs := setA attrs "LineWidth" (.str style.LineWidth)
  let attrs := setA attrs "MarginWidth" (.str style.MarginWidth)
  let attrs := setA attrs "HashSpacing" (.str style.HashSpacing)
  let attrs := setA attrs "CaptionSize" (.str style.CaptionSize)
  let attrs := setA attrs "LabelSize" (.str style.LabelSize)
  let attrs := setA attrs "LabelFace" (.str style.LabelFace)
  let attrs := setA attrs "LabelFont" (.str style.LabelFont)
  match lookupA attrs "HideImplicitHydrogens" with
  | none => .error (.key "HideImplicitHydrogens")
  | some (.pt2 _ _) => .error .typeErr
  | some (.rect _ _ _ _) => .error .typeErr
  | some (.str implicit_h_source) =>
      let attrs := setA attrs "HideImplicitHydrogens" (.str style.HideImplicitHydrogens)
      let implict_h_changed := implicit_h_source ≠ style.HideImplicitHydrogens
      match parsePyFloat style.BondLength with
      | .error e => .error e
      | .ok bl =>
          match processFrags style implict_h_changed ((bl : ℚ) : ℝ) root.fragments with
          | .error (.key _) => .error (.value "Molecule has no coordinates")
          | .error e => .error e
          | .ok r => .ok { attrs := attrs, fragments := r.1 }

end CDXMLStyler

/-- The built-in ACS 1996 preset. -/
def acs1996 : Style := ⟨"18", "14.40", "2", "0.60", "1.60", "2.50", "10", "10", "96", "3", "no"⟩

/-- The two-atom fragment of the scaling scenario: atoms at `(0,0)` and
`(10,0)`, one bond. -/
def c6frag : Frag :=
  { attrs := [("id", .str "10"), ("BoundingBox", .rect 0 0 10 0)],
    nodes := [⟨[("id", .str "1"), ("p", .pt2 0 0)], []⟩,
              ⟨[("id", .str "2"), ("p", .pt2 10 0)], []⟩],
    bonds := [⟨[("id", .str "3"), ("B", .str "1"), ("E", .str "2")]⟩] }

/-- The scaling scenario's expected fragment: atoms moved to
`(-2.2, 0)` and `(12.2, 0)` (exactly `-11/5` and `61/5`). -/
noncomputable def c6fragOut : Frag :=
  { attrs := [("id", .str "10"), ("BoundingBox", .rect (-(11 / 5) : ℝ) 0 (61 / 5 : ℝ) 0)],
    nodes := [⟨[("id", .str "1"), ("p", .pt2 (-(11 / 5) : ℝ) 0)], []⟩,
              ⟨[("id", .str "2"), ("p", .pt2 (61 / 5 : ℝ) 0)], []⟩],
    bonds := [⟨[("id", .str "3"), ("B", .str "1"), ("E", .str "2")]⟩] }

/-- The scaling scenario's document: one two-atom fragment. -/
def c6doc : SDoc := { attrs := [("HideImplicitHydrogens", .str "no")], fragments := [c6frag] }

/-- The expected styled document of the scaling scenario. -/
noncomputable def c6out : SDoc :=
  { attrs := [("HideImplicitHydrogens", .str "no"), ("BondSpacing", .str "18"),
      ("BondLength", .str "14.40"), ("BoldWidth", .str "2"), ("LineWidth", .str "0.60"),
      ("MarginWidth", .str "1.60"), ("HashSpacing", .str "2.50"), ("CaptionSize", .str "10"),
      ("LabelSize", .str "10"), ("LabelFace", .str "96"), ("LabelFont", .str "3")],
    fragments := [c6fragOut] }

/-- The length prefix `_type_to_stream` emits for a payload of `n`
bytes: 2-byte little-endian when `n ≤ 65534`, otherwise the marker
`FF FF` followed by the 4-byte little-endian length. -/
def lengthPrefix (n : ℕ) : List ℕ :=
  if n ≤ 65534 then leBytes 2 n else 255 :: 255 :: leBytes 4 n

/-- The implicit-hydrogen scenario's presets: bond length 10 (so the
geometry is unchanged), hydrogens shown (`"no"`) or hidden (`"yes"`). -/
def presetShowH : Style := ⟨"18", "10", "2", "0.60", "1.60", "2.50", "10", "10", "96", "3", "no"⟩

/-- The reverse preset of the implicit-hydrogen scenario. -/
def presetHideH : Style := ⟨"18", "10", "2", "0.60", "1.60", "2.50", "10", "10", "96", "3", "yes"⟩

/-- The implicit-hydrogen fragment: an O atom with 2 hydrogens and a Cl
atom with 1 hydrogen, labels `"O"` and `"Cl"`. -/
def c7frag : Frag :=
  { attrs := [("id", .str "20"), ("BoundingBox", .rect 0 0 10 0)],
    nodes := [⟨[("id", .str "1"), ("p", .pt2 0 0), ("NumHydrogens", .str "2")],
                [⟨[], [⟨[], "O"⟩]⟩]⟩,
              ⟨[("id", .str "2"), ("p", .pt2 10 0), ("NumHydrogens", .str "1")],
                [⟨[], [⟨[], "Cl"⟩]⟩]⟩],
    bonds := [⟨[("id", .str "3"), ("B", .str "1"), ("E", .str "2")]⟩] }

/-- Expected fragment after showing hydrogens: labels `"OH2"`, `"ClH"`. -/
def c7fragOutNo : Frag :=
  { attrs := [("id", .str "20"), ("BoundingBox", .rect 0 0 10 0)],
    nodes := [⟨[("id", .str "1"), ("p", .pt2 0 0), ("NumHydrogens", .str "2")],
                [⟨[], [⟨[("size", .str "10"), ("face", .str "96"), ("font", .str "3")], "OH2"⟩]⟩]⟩,
              ⟨[("id", .str "2"), ("p", .pt2 10 0), ("NumHydrogens", .str "1")],
                [⟨[], [⟨[("size", .str "10"), ("face", .str "96"), ("font", .str "3")], "ClH"⟩]⟩]⟩],
    bonds := [⟨[("id", .str "3"), ("B", .str "1"), ("E", .str "2")]⟩] }

/-- The reverse fragment: labels `"OH2"` and `"ClH"` to be truncated. -/
def c7fragR : Frag :=
  { attrs := [("id", .str "20"), ("BoundingBox", .rect 0 0 10 0)],
    nodes := [⟨[("id", .str "1"), ("p", .pt2 0 0), ("NumHydrogens", .str "2")],
                [⟨[], [⟨[], "OH2"⟩]⟩]⟩,
              ⟨[("id", .str "2"), ("p", .pt2 10 0), ("NumHydrogens", .str "1")],
                [⟨[], [⟨[], "ClH"⟩]⟩]⟩],
    bonds := [⟨[("id", .str "3"), ("B", .str "1"), ("E", .str "2")]⟩] }

/-- Expected fragment after hiding hydrogens: labels `"O"`, `"Cl"`. -/
def c7fragROut : Frag :=
  { attrs := [("id", .str "20"), ("BoundingBox", .rect 0 0 10 0)],
    nodes := [⟨[("id", .str "1"), ("p", .pt2 0 0), ("NumHydrogens", .str "2")],
                [⟨[], [⟨[("size", .str "10"), ("face", .str "96"), ("font", .str "3")], "O"⟩]⟩]⟩,
              ⟨[("id", .str "2"), ("p", .pt2 10 0), ("NumHydrogens", .str "1")],
                [⟨[], [⟨[("size", .str "10"), ("face", .str "96"), ("font", .str "3")], "Cl"⟩]⟩]⟩],
    bonds := [⟨[("id", .str "3"), ("B", .str "1"), ("E", .str "2")]⟩] }

/-- The implicit-hydrogen documents: previously marked `"yes"` (hidden)
respectively `"no"` (shown). -/
def c7doc : SDoc := { attrs := [("HideImplicitHydrogens", .str "yes")], fragments := [c7frag] }

/-- The reverse document of the implicit-hydrogen scenario. -/
def c7docR : SDoc := { attrs := [("HideImplicitHydrogens", .str "no")], fragments := [c7fragR] }

/-- Expected styled document with hydrogens shown. -/
def c7out : SDoc :=
  { attrs := [("HideImplicitHydrogens", .str "no"), ("BondSpacing", .str "18"),
      ("BondLength", .str "10"), ("BoldWidth", .str "2"), ("LineWidth", .str "0.60"),
      ("MarginWidth", .str "1.60"), ("HashSpacing", .str "2.50"), ("CaptionSize", .str "10"),
      ("LabelSize", .str "10"), ("LabelFace", .str "96"), ("LabelFont", .str "3")],
    fragments := [c7fragOutNo] }

/-- Expected styled document with hydrogens hidden again. -/
def c7outR : SDoc :=
  { attrs := [("HideImplicitHydrogens", .str "yes"), ("BondSpacing", .str "18"),
      ("BondLength", .str "10"), ("BoldWidth", .str "2"), ("LineWidth", .str "0.60"),
      ("MarginWidth", .str "1.60"), ("HashSpacing", .str "2.50"), ("CaptionSize", .str "10"),
      ("LabelSize", .str "10"), ("LabelFace", .str "96"), ("LabelFont", .str "3")],
    fragments := [c7fragROut] }

/-- The single-atom fragment of the C2 counterexample. -/
def c2frag1 : Frag :=
  { attrs := [("id", .str "30"), ("BoundingBox", .rect 0 0 0 0)],
    nodes := [⟨[("id", .str "1"), ("p", .pt2 0 0)], []⟩],
    bonds := [] }

/-- The second fragment of the C2 counterexample: its bond carries the
non-whitelisted attribute `color`. -/
def c2frag2 : Frag :=
  { attrs := [("id", .str "31"), ("BoundingBox", .rect 0 0 10 0)],
    nodes := [⟨[("id", .str "4"), ("p", .pt2 0 0)], []⟩,
              ⟨[("id", .str "5"), ("p", .pt2 10 0)], []⟩],
    bonds := [⟨[("id", .str "6"), ("B", .str "4"), ("E", .str "5"), ("color", .str "3")]⟩] }

/-- The C2 counterexample document: a single-atom fragment followed by
a two-atom fragment whose bond has a `color` attribute. -/
def c2doc : SDoc :=
  { attrs := [("HideImplicitHydrogens", .str "no")], fragments := [c2frag1, c2frag2] }

/-- The styled C2 counterexample document: the styler returned at the
single-atom fragment, so the second fragment is untouched and its bond
keeps the `color` attribute. -/
def c2out : SDoc :=
  { attrs := [("HideImplicitHydrogens", .str "no"), ("BondSpacing", .str "18"),
      ("BondLength", .str "14.40"), ("BoldWidth", .str "2"), ("LineWidth", .str "0.60"),
      ("MarginWidth", .str "1.60"), ("HashSpacing", .str "2.50"), ("CaptionSize", .str "10"),
      ("LabelSize", .str "10"), ("LabelFace", .str "96"), ("LabelFont", .str "3")],
    fragments := [c2frag1, c2frag2] }

/-- A fragment the styler counts as single-atom: node collection
succeeds and the node-id mapping has exactly one entry. -/
def singleAtomFragment (f : Frag) : Prop :=
  ∃ r, CDXMLStyler.collectNodes f.nodes 0 [] = .ok r ∧ r.2.1.length = 1


section Theorems

open CDXMLStyler

attribute [local semireducible] Rat.mul Rat.add Rat.sub Rat.inv Rat.ofScientific

set_option maxHeartbeats 1000000


theorem leBytes_length (n v : ℕ) : (leBytes n v).length = n := by
  induction n generalizing v with
  | zero => rfl
  | succ n ih => simp [leBytes, ih]

theorem leVal_leBytes (n v : ℕ) (h : v < 256 ^ n) : leVal (leBytes n v) = v := by
  induction n generalizing v with
  | zero => simpa [leBytes, leVal] using (Nat.lt_one_iff.mp (by simpa using h)).symm
  | succ n ih =>
      have hdiv : v / 256 < 256 ^ n := by
        apply Nat.div_lt_of_lt_mul
        calc v < 256 ^ (n + 1) := h
        _ = 256 * 256 ^ n := by ring
      simp [leBytes, leVal, ih _ hdiv]
      omega

theorem halfEvenR_int (n : ℤ) : halfEvenR (n : ℝ) = n := by
  unfold halfEvenR
  simp

theorem pyRoundR_ratCast (nd : ℕ) (q : ℚ) (h : (q * 10 ^ nd).den = 1) :
    pyRoundR nd ((q : ℚ) : ℝ) = ((q : ℚ) : ℝ) := by
  have hq : (((q * 10 ^ nd).num : ℚ)) = q * 10 ^ nd := Rat.coe_int_num_of_den_eq_one h
  have hqR : (((q * 10 ^ nd).num : ℤ) : ℝ) = (q : ℝ) * 10 ^ nd := by
    have := congrArg (fun x : ℚ => (x : ℝ)) hq
    push_cast at this
    simpa using this
  unfold pyRoundR
  rw [show ((q : ℝ) * 10 ^ nd) = (((q * 10 ^ nd).num : ℤ) : ℝ) from hqR.symm, halfEvenR_int]
  rw [hqR]
  have h10 : ((10 : ℝ) ^ nd) ≠ 0 := by positivity
  field_simp

theorem pyRoundR2_m115 : pyRoundR 2 (-(11 / 5) : ℝ) = -(11 / 5) := by
  rw [show (-(11 / 5) : ℝ) = ((-(11 / 5) : ℚ) : ℝ) by norm_num]
  exact pyRoundR_ratCast 2 (-(11 / 5)) (by decide)

theorem pyRoundR2_615 : pyRoundR 2 (61 / 5 : ℝ) = 61 / 5 := by
  rw [show ((61 / 5) : ℝ) = (((61 / 5) : ℚ) : ℝ) by norm_num]
  exact pyRoundR_ratCast 2 (61 / 5) (by decide)

theorem pyRoundR2_zero : pyRoundR 2 (0 : ℝ) = 0 := by
  rw [show ((0 : ℝ)) = (((0 : ℚ)) : ℝ) by norm_num]
  exact pyRoundR_ratCast 2 0 (by decide)

theorem pyRoundR2_ten : pyRoundR 2 (10 : ℝ) = 10 := by
  rw [show ((10 : ℝ)) = (((10 : ℚ)) : ℝ) by norm_num]
  exact pyRoundR_ratCast 2 10 (by decide)

/-- Average bond length of the two-atom fragment with atoms at `(0,0)`
and `(10,0)` joined by one bond: exactly 10. -/
theorem avg_bl_two_atoms :
    get_avg_bl [(0, 0), (10, 0)] [(1, 2)] [(1, 0), (2, 1)] = .ok 10 := by
  have h100 : Real.sqrt (((0 : ℝ) - 10) ^ 2 + ((0 : ℝ) - 0) ^ 2) = 10 := by
    rw [show ((0 : ℝ) - 10) ^ 2 + ((0 : ℝ) - 0) ^ 2 = 10 ^ 2 by norm_num]
    exact Real.sqrt_sq (by norm_num)
  simp [get_avg_bl, bondEndpoints, Bind.bind, Except.bind, npNorm, h100]
  rw [show (10 : ℝ) = ((10 : ℚ) : ℝ) by norm_num]
  rw [pyRoundR_ratCast 1 10 (by decide)]

/-- Styling the two-atom fragment with bond length `14.4 = 72/5`
scales by `1.44` and recenters on `(5, 0)`. -/
theorem c6frag_eval : processFrag acs1996 false (72 / 5 : ℝ) c6frag = .ok (c6fragOut, false) := by
  have h1 : getStr c6frag.attrs "id" = .ok "10" := rfl
  have h2 : add_missing_bounding_box c6frag = .ok c6frag := rfl
  have hg : get_coords_and_mapping c6frag =
      .ok ([(0, 0), (10, 0)], [(1, 0), (2, 1)], [(1, 2)], [], c6frag) := rfl
  have hfix : fix_bounding_box c6frag ((72 / 5 : ℝ) / 10) =
      .ok { c6frag with attrs :=
        [("id", .str "10"), ("BoundingBox", .rect (-(11 / 5) : ℝ) 0 (61 / 5 : ℝ) 0)] } := by
    simp [fix_bounding_box, getRect, lookupA, c6frag, List.find?, setA, Bind.bind, Except.bind]
    norm_num [pyRoundR2_zero]
    constructor
    · exact pyRoundR2_m115
    · exact pyRoundR2_615
  have hfc : CDXMLStyler.translate [((0 : ℝ), (0 : ℝ)), (10, 0)]
      (List.map (fun c => (c.1 * ((72 / 5 : ℝ) / 10), c.2 * ((72 / 5 : ℝ) / 10)))
        [((0 : ℝ), (0 : ℝ)), (10, 0)]) = [(-(11 / 5), 0), (61 / 5, 0)] := by
    simp only [CDXMLStyler.translate, get_center, listMinR, listMaxR, List.map, List.foldl]
    norm_num
  simp only [processFrag, Bind.bind, Except.bind, h1, h2, hg, avg_bl_two_atoms, hfix, hfc]
  norm_num
  rfl

/-- C1: decoding the 34-byte empty-document stream (header, `00 80`,
`01 00 00 00`, `00 00`, `00 00`).  The source's `from_bytes` reads the
header, the document tag and the id `1`, runs the attribute loop (which
immediately seeks back on the `00 00` tag), then reads tag `0`, which
is no object tag, so the `while tag_id in CDX_OBJECTS` loop never runs
and the function falls off its end: Python returns `None`, not a
`ChemDrawDocument`.  (Independently, `from_bytes` never stores the
document id on the root element, so even a document that is returned
carries no `id="1"` attribute, and re-encoding draws a fresh id from
the generator.) -/
theorem C1_empty_document_decode_returns_none :
    chemDrawDocument_from_bytes specCatalog emptyDocBytes = .ok none := by rfl

/-- C3 counterexample: formatting the `CDXPoint3D` with x = 72 pt,
y = 144 pt, z = 216 pt (CDX units 4718592, 9437184, 14155776) yields
`"216.0 144.0 72.0"` — the z coordinate comes first, not the x
coordinate, so the text is not of the form "x y z". -/
theorem C3_format_order_counterexample :
    CDXPoint3D.to_property_value ⟨4718592, 9437184, 14155776⟩ = "216.0 144.0 72.0" ∧
    CDXCoordinate.to_property_value (4718592 : ℤ) = "72.0" ∧
    CDXCoordinate.to_property_value (14155776 : ℤ) = "216.0" ∧
    "216.0 144.0 72.0" ≠ "72.0 144.0 216.0" := by decide

/-- C3 amended: `CDXPoint3D.to_property_value` emits the coordinates in
the order z, y, x (space-separated), while `CDXPoint3D.from_string`
reads x from the first space-separated field, y from the second and z
from the third. -/
theorem C3_format_zyx_parse_xyz :
    (∀ p : CDXPoint3D, CDXPoint3D.to_property_value p =
      CDXCoordinate.to_property_value p.z ++ " " ++ CDXCoordinate.to_property_value p.y
        ++ " " ++ CDXCoordinate.to_property_value p.x) ∧
    (∀ (v a b c : String) (xv yv zv : ℤ), pySplit v ' ' = [a, b, c] →
      CDXCoordinate.from_string a = .ok xv → CDXCoordinate.from_string b = .ok yv →
      CDXCoordinate.from_string c = .ok zv →
      CDXPoint3D.from_string v = .ok ⟨xv, yv, zv⟩) := by
  constructor
  · intro p
    rfl
  · intro v a b c xv yv zv hsplit hx hy hz
    unfold CDXPoint3D.from_string
    rw [hsplit]
    simp only [List.get?, hx, hy, hz, Bind.bind, Except.bind]

/-- C3 witness: parsing `"72 144 216"` reads x = 72 pt from the first
field, y = 144 pt from the second, z = 216 pt from the third. -/
theorem C3_format_zyx_parse_xyz_witness :
    CDXPoint3D.from_string "72 144 216" = .ok ⟨4718592, 9437184, 14155776⟩ :=
  C3_format_zyx_parse_xyz.2 "72 144 216" "72" "144" "216" 4718592 9437184 14155776
    (by decide) (by decide) (by decide) (by decide)

/-- C4: the range guards of the fixed-width integer kinds are Python
chained comparisons (`0 > value > 65535` etc.), which are never true,
so out-of-range decimal strings are accepted instead of raising
`OutOfRange`: `UINT16("70000")`, `INT16("40000")` and the analogous
inputs for the other four kinds all construct values, and the
constructor guard is provably vacuous for every integer. -/
theorem C4_range_checks_vacuous :
    (UINT16.from_string "70000" = .ok ⟨70000⟩ ∧ INT16.from_string "40000" = .ok ⟨40000⟩ ∧
      INT8.from_string "200" = .ok ⟨200⟩ ∧ UINT8.from_string "300" = .ok ⟨300⟩ ∧
      INT32.from_string "3000000000" = .ok ⟨3000000000⟩ ∧
      UINT32.from_string "5000000000" = .ok ⟨5000000000⟩) ∧
    (∀ v : ℤ, UINT16.init v = .ok ⟨v⟩) ∧ (∀ v : ℤ, INT16.init v = .ok ⟨v⟩) := by
  refine ⟨by decide, ?_, ?_⟩
  · intro v
    unfold UINT16.init
    rw [if_neg]
    rintro ⟨h1, h2⟩
    omega
  · intro v
    unfold INT16.init
    rw [if_neg]
    rintro ⟨h1, h2⟩
    omega

/-- C5 counterexample: decoding the 8 bytes `00 00 90 00 00 00 48 00`
and formatting yields `"72.0 144.0"` — `str(round(72.0, 2))` is
`"72.0"`, not `"72"` — so the reverse direction does not reproduce the
text `"72 144"`. -/
theorem C5_reverse_counterexample :
    CDXPoint2D.to_property_value
      (CDXPoint2D.from_bytes [0x00, 0x00, 0x90, 0x00, 0x00, 0x00, 0x48, 0x00]) = "72.0 144.0" ∧
    "72.0 144.0" ≠ "72 144" := by decide

/-- C5 amended: parsing `"72 144"` and encoding gives exactly
`00 00 90 00 00 00 48 00` (y before x); decoding those bytes recovers
the coordinate pair, and formatting it yields `"72.0 144.0"`. -/
theorem C5_point2d_roundtrip :
    CDXPoint2D.from_string "72 144" = .ok ⟨4718592, 9437184⟩ ∧
    CDXPoint2D.to_bytes ⟨4718592, 9437184⟩ =
      [0x00, 0x00, 0x90, 0x00, 0x00, 0x00, 0x48, 0x00] ∧
    CDXPoint2D.from_bytes [0x00, 0x00, 0x90, 0x00, 0x00, 0x00, 0x48, 0x00] =
      ⟨4718592, 9437184⟩ ∧
    CDXPoint2D.to_property_value ⟨4718592, 9437184⟩ = "72.0 144.0" := by decide

/-- C8: for every payload below 2^32 bytes, the writer emits a 2-byte
little-endian length when the payload is at most 65534 bytes and
otherwise `FF FF` followed by the 4-byte little-endian length; the
reader's length step recovers exactly the payload length and leaves the
cursor at the start of the payload. -/
theorem C8_length_prefix_roundtrip (payload rest : List ℕ) (h : payload.length < 2 ^ 32) :
    type_to_stream payload = .ok (lengthPrefix payload.length ++ payload) ∧
    read_prop_length ⟨lengthPrefix payload.length ++ (payload ++ rest), 0⟩ =
      (payload.length,
        ⟨lengthPrefix payload.length ++ (payload ++ rest), (lengthPrefix payload.length).length⟩) := by
  by_cases hle : payload.length ≤ 65534
  · constructor
    · simp [type_to_stream, lengthPrefix, hle]
    · have hlen2 : (leBytes 2 payload.length).length = 2 := leBytes_length 2 _
      have hval : leVal (leBytes 2 payload.length) = payload.length :=
        leVal_leBytes 2 _ (by norm_num; omega)
      simp only [lengthPrefix, if_pos hle, read_prop_length, Strm.read, List.drop_zero]
      rw [List.take_left' hlen2]
      rw [hval]
      rw [if_neg (by omega)]
      simp [hlen2, List.length_append]
  · constructor
    · simp only [type_to_stream, lengthPrefix, if_neg hle]
      rw [if_pos (by norm_num at h ⊢; omega)]
    · have hlen4 : (leBytes 4 payload.length).length = 4 := leBytes_length 4 _
      have hval : leVal (leBytes 4 payload.length) = payload.length :=
        leVal_leBytes 4 _ (by norm_num at h ⊢; omega)
      simp only [lengthPrefix, if_neg hle, read_prop_length, Strm.read, List.drop_zero]
      have ht2 : (255 :: 255 :: (leBytes 4 payload.length ++ (payload ++ rest))).take 2 =
          [255, 255] := rfl
      rw [List.cons_append, List.cons_append, ht2]
      rw [show leVal [255, 255] = 65535 by norm_num [leVal]]
      rw [if_pos rfl]
      simp only [List.length_cons]
      have hdrop : ((255 :: 255 :: (leBytes 4 payload.length ++ (payload ++ rest))).drop
          (min (0 + 2) (leBytes 4 payload.length ++ (payload ++ rest)).length.succ.succ)) =
          leBytes 4 payload.length ++ (payload ++ rest) := by
        rw [min_eq_left (by omega)]
        rfl
      rw [hdrop, List.take_left' hlen4, hval]
      simp [hlen4, List.length_append]

/-- C8 witness: the 3-byte payload `[1, 2, 3]` gets the short 2-byte
length prefix `03 00` and the reader recovers length 3. -/
theorem C8_length_prefix_roundtrip_witness :
    type_to_stream [1, 2, 3] = .ok (lengthPrefix ([1, 2, 3] : List ℕ).length ++ [1, 2, 3]) ∧
    read_prop_length ⟨lengthPrefix ([1, 2, 3] : List ℕ).length ++ ([1, 2, 3] ++ [9]), 0⟩ =
      (([1, 2, 3] : List ℕ).length,
        ⟨lengthPrefix ([1, 2, 3] : List ℕ).length ++ ([1, 2, 3] ++ [9]),
          (lengthPrefix ([1, 2, 3] : List ℕ).length).length⟩) :=
  C8_length_prefix_roundtrip [1, 2, 3] [9] (by norm_num)

/-- C9: `CDXBooleanImplied.to_bytes` succeeds only on the value true,
with a zero-length payload; the value false raises `ValueError`, so a
false implied boolean is never written to a returned CDX stream. -/
theorem C9_boolean_implied_never_false :
    CDXBooleanImplied.to_bytes true = .ok ([] : List ℕ) ∧
    CDXBooleanImplied.to_bytes false =
      .error (.value "A BooleanImplied with value False should not be written to cdx file.") ∧
    CDXBooleanImplied.from_string "no" = .ok false ∧
    CDXBooleanImplied.from_string "yes" = .ok true := by decide

/-- Styling the scaling-scenario document with the ACS 1996 preset. -/
theorem apply_style_c6doc : apply_style acs1996 c6doc = .ok c6out := by
  have hbl : parsePyFloat "14.40" = .ok (72 / 5 : ℚ) := by decide
  have hh := c6frag_eval
  simp only [acs1996] at hh
  simp [apply_style, c6doc, acs1996, setA, lookupA, hbl]
  simp only [processFrags, Bind.bind, Except.bind, hh]
  rfl

/-- C6: styling the fragment with atoms at `(0,0)` and `(10,0)` and one
bond, with preset bond length `14.4`, moves the atoms to exactly
`(-11/5, 0) = (-2.2, 0)` and `(61/5, 0) = (12.2, 0)`: every position
is `center + 1.44 * (old - center)` with center `(5, 0)` the midpoint
of the axis-aligned bounding box. -/
theorem C6_two_atom_scaling :
    apply_style acs1996 c6doc = .ok c6out ∧
    c6fragOut.nodes.map (fun n => lookupA n.attrs "p") =
      [some (.pt2 (-(11 / 5)) 0), some (.pt2 (61 / 5) 0)] ∧
    (-(11 / 5) : ℝ) = 5 + (144 / 100) * (0 - 5) ∧
    ((61 / 5) : ℝ) = 5 + (144 / 100) * (10 - 5) := by
  refine ⟨apply_style_c6doc, rfl, by norm_num, by norm_num⟩

theorem c7frag_eval : processFrag presetShowH true (10 : ℝ) c7frag = .ok (c7fragOutNo, false) := by
  have h1 : getStr c7frag.attrs "id" = .ok "20" := rfl
  have h2 : add_missing_bounding_box c7frag = .ok c7frag := rfl
  have hg : get_coords_and_mapping c7frag =
      .ok ([(0, 0), (10, 0)], [(1, 0), (2, 1)], [(1, 2)], [], c7frag) := rfl
  have hfix : fix_bounding_box c7frag ((10 : ℝ) / 10) = .ok c7frag := by
    simp [fix_bounding_box, getRect, lookupA, c7frag, List.find?, setA, Bind.bind, Except.bind]
    norm_num [pyRoundR2_zero, pyRoundR2_ten]
  have hfc : CDXMLStyler.translate [((0 : ℝ), (0 : ℝ)), (10, 0)]
      (List.map (fun c => (c.1 * ((10 : ℝ) / 10), c.2 * ((10 : ℝ) / 10)))
        [((0 : ℝ), (0 : ℝ)), (10, 0)]) = [(0, 0), (10, 0)] := by
    simp only [CDXMLStyler.translate, get_center, listMinR, listMaxR, List.map, List.foldl]
    norm_num
  simp only [processFrag, Bind.bind, Except.bind, h1, h2, hg, avg_bl_two_atoms, hfix, hfc]
  norm_num
  rfl

theorem c7fragR_eval : processFrag presetHideH true (10 : ℝ) c7fragR = .ok (c7fragROut, false) := by
  have h1 : getStr c7fragR.attrs "id" = .ok "20" := rfl
  have h2 : add_missing_bounding_box c7fragR = .ok c7fragR := rfl
  have hg : get_coords_and_mapping c7fragR =
      .ok ([(0, 0), (10, 0)], [(1, 0), (2, 1)], [(1, 2)], [], c7fragR) := rfl
  have hfix : fix_bounding_box c7fragR ((10 : ℝ) / 10) = .ok c7fragR := by
    simp [fix_bounding_box, getRect, lookupA, c7fragR, List.find?, setA, Bind.bind, Except.bind]
    norm_num [pyRoundR2_zero, pyRoundR2_ten]
  have hfc : CDXMLStyler.translate [((0 : ℝ), (0 : ℝ)), (10, 0)]
      (List.map (fun c => (c.1 * ((10 : ℝ) / 10), c.2 * ((10 : ℝ) / 10)))
        [((0 : ℝ), (0 : ℝ)), (10, 0)]) = [(0, 0), (10, 0)] := by
    simp only [CDXMLStyler.translate, get_center, listMinR, listMaxR, List.map, List.foldl]
    norm_num
  simp only [processFrag, Bind.bind, Except.bind, h1, h2, hg, avg_bl_two_atoms, hfix, hfc]
  norm_num
  rfl

/-- C7: toggling `HideImplicitHydrogens` from `"yes"` to `"no"` appends
the implicit hydrogens to every label of an atom with
`NumHydrogens > 0`: `"O"` with 2 hydrogens becomes `"OH2"`, `"Cl"` with
1 hydrogen becomes `"ClH"`; the reverse toggle truncates the label back
to the leading element symbol: `"OH2"` becomes `"O"`, `"ClH"` becomes
`"Cl"`. -/
theorem C7_implicit_hydrogen_toggle :
    apply_style presetShowH c7doc = .ok c7out ∧
    apply_style presetHideH c7docR = .ok c7outR := by
  constructor
  · have hbl : parsePyFloat "10" = .ok (10 : ℚ) := by decide
    have hh := c7frag_eval
    simp only [presetShowH] at hh
    simp [apply_style, c7doc, presetShowH, setA, lookupA, hbl]
    simp only [processFrags, Bind.bind, Except.bind, hh]
    rfl
  · have hbl : parsePyFloat "10" = .ok (10 : ℚ) := by decide
    have hh := c7fragR_eval
    simp only [presetHideH] at hh
    simp [apply_style, c7docR, presetHideH, setA, lookupA, hbl]
    simp only [processFrags, Bind.bind, Except.bind, hh]
    rfl

theorem find?_map_setkey (k k' : String) (v : AVal) (h : k' ≠ k) :
    ∀ l : List (String × AVal),
      List.find? (fun p => p.1 == k') (l.map (fun p => if p.1 == k then (k, v) else p)) =
      List.find? (fun p => p.1 == k') l := by
  intro l
  induction l with
  | nil => rfl
  | cons a t ih =>
      rw [List.map_cons]
      by_cases hk : a.1 = k
      · rw [if_pos (by simpa using hk)]
        rw [List.find?_cons_of_neg _ (by simp [Ne.symm h])]
        rw [List.find?_cons_of_neg _ (by simp [hk, Ne.symm h])]
        exact ih
      · rw [if_neg (by simpa using hk)]
        by_cases ha : a.1 = k'
        · rw [List.find?_cons_of_pos _ (by simpa using ha),
            List.find?_cons_of_pos _ (by simpa using ha)]
        · rw [List.find?_cons_of_neg _ (by simpa using ha),
            List.find?_cons_of_neg _ (by simpa using ha)]
          exact ih

theorem lookupA_setA_ne (l : Attrs) (k k' : String) (v : AVal) (h : k' ≠ k) :
    lookupA (setA l k v) k' = lookupA l k' := by
  unfold lookupA setA
  by_cases hany : List.any l (fun p => p.1 == k)
  · rw [if_pos hany, find?_map_setkey k k' v h l]
  · rw [if_neg hany, List.find?_append]
    have hkk : (k == k') = false := by simp [Ne.symm h]
    have hnone : List.find? (fun p => p.1 == k') [(k, v)] = none := by
      simp [List.find?, hkk]
    rw [hnone]
    simp

/-- C10: when the input root element has no `HideImplicitHydrogens`
attribute, `_apply_style` raises an uncaught `KeyError` at the read
`root.attrib["HideImplicitHydrogens"]` — the ten recognized preset keys
set unconditionally just before do not include it, and the
`try/except KeyError` only starts at the fragment loop — so the styler
fails before any fragment is processed, for every preset. -/
theorem C10_missing_hide_implicit_hydrogens_keyerror (style : Style) (root : SDoc)
    (h : lookupA root.attrs "HideImplicitHydrogens" = none) :
    apply_style style root = .error (.key "HideImplicitHydrogens") := by
  simp only [apply_style]
  rw [lookupA_setA_ne _ _ _ _ (by decide), lookupA_setA_ne _ _ _ _ (by decide),
    lookupA_setA_ne _ _ _ _ (by decide), lookupA_setA_ne _ _ _ _ (by decide),
    lookupA_setA_ne _ _ _ _ (by decide), lookupA_setA_ne _ _ _ _ (by decide),
    lookupA_setA_ne _ _ _ _ (by decide), lookupA_setA_ne _ _ _ _ (by decide),
    lookupA_setA_ne _ _ _ _ (by decide), lookupA_setA_ne _ _ _ _ (by decide), h]

/-- C10 witness: a document whose root carries a `BondLength` but not
`HideImplicitHydrogens` makes the styler fail with the `KeyError`. -/
theorem C10_missing_hide_implicit_hydrogens_keyerror_witness :
    apply_style acs1996 ⟨[("BondLength", .str "30")], [c6frag]⟩ =
      .error (.key "HideImplicitHydrogens") :=
  C10_missing_hide_implicit_hydrogens_keyerror acs1996 ⟨[("BondLength", .str "30")], [c6frag]⟩ rfl

theorem c2frag1_eval (st : Style) (h : Bool) (bl : ℝ) :
    processFrag st h bl c2frag1 = .ok (c2frag1, true) := rfl

/-- C2 counterexample: styling `c2doc` succeeds but the bond of the
fragment that follows the single-atom fragment keeps its `color`
attribute, which is not in the bond whitelist. -/
theorem C2_bond_whitelist_counterexample :
    apply_style acs1996 c2doc = .ok c2out ∧
    ∃ f ∈ c2out.fragments, ∃ b ∈ f.bonds, ∃ a ∈ b.attrs, a.1 ∉ bond_attributes := by
  constructor
  · have hbl : parsePyFloat "14.40" = .ok (72 / 5 : ℚ) := by decide
    have hh := c2frag1_eval
      (Style.mk "18" "14.40" "2" "0.60" "1.60" "2.50" "10" "10" "96" "3" "no") false
      ((72 / 5 : ℚ) : ℝ)
    simp [apply_style, c2doc, acs1996, setA, lookupA, hbl]
    simp only [processFrags, Bind.bind, Except.bind, hh]
    rfl
  · refine ⟨c2frag2, by simp [c2out], ?_⟩
    refine ⟨⟨[("id", .str "6"), ("B", .str "4"), ("E", .str "5"), ("color", .str "3")]⟩,
      by simp [c2frag2], ?_⟩
    refine ⟨("color", .str "3"), by simp, by decide⟩

theorem mem_filterKeys {a : String × AVal} {l : Attrs} {keep : List String}
    (h : a ∈ filterKeys l keep) : a.1 ∈ keep := by
  unfold filterKeys at h
  have := List.mem_filter.mp h
  simpa using this.2

theorem stripBonds_whitelist :
    ∀ (bs : List BondEl) (r : List (ℤ × ℤ) × List BondEl), stripBonds bs = .ok r →
      ∀ b ∈ r.2, ∀ a ∈ b.attrs, a.1 ∈ bond_attributes := by
  intro bs
  induction bs with
  | nil =>
      intro r h b hb
      simp only [stripBonds] at h
      cases h
      simp at hb
  | cons bhd btl ih =>
      intro r h b hb
      simp only [stripBonds, Bind.bind, Except.bind] at h
      split at h
      · cases h
      · split at h
        · cases h
        · split at h
          · cases h
          · cases h
            rename_i s hs e he r' hr'
            rcases List.mem_cons.mp hb with hhead | htail
            · subst hhead
              intro a ha
              exact mem_filterKeys ha
            · exact ih r' hr' b htail

theorem gcm_bonds_whitelist (f : Frag)
    (out : List (ℝ × ℝ) × List (ℤ × ℕ) × List (ℤ × ℤ) × List (ℝ × ℝ) × Frag)
    (h : get_coords_and_mapping f = .ok out) :
    ∀ b ∈ out.2.2.2.2.bonds, ∀ a ∈ b.attrs, a.1 ∈ bond_attributes := by
  simp only [get_coords_and_mapping, Bind.bind, Except.bind] at h
  split at h
  · cases h
  · split at h
    · cases h
    · cases h
      rename_i cn hcn bb hbb
      intro b hb
      exact stripBonds_whitelist f.bonds bb hbb b hb

theorem fix_bounding_box_bonds (f : Frag) (s : ℝ) (f' : Frag)
    (h : fix_bounding_box f s = .ok f') : f'.bonds = f.bonds := by
  simp only [fix_bounding_box, Bind.bind, Except.bind] at h
  split at h
  · cases h
  · cases h
    rfl

theorem processFrag_bonds_whitelist (st : Style) (hc : Bool) (bl : ℝ) (f f' : Frag)
    (single : Bool) (h : processFrag st hc bl f = .ok (f', single)) :
    ∀ b ∈ f'.bonds, ∀ a ∈ b.attrs, a.1 ∈ bond_attributes := by
  simp only [processFrag, Bind.bind, Except.bind] at h
  split at h
  · cases h
  · split at h
    · cases h
    · split at h
      · cases h
      · rename_i v2 hid fb hfb gout hgout
        split at h
        · cases h
        · split at h
          · cases h
            intro b hb
            exact gcm_bonds_whitelist hid gout hgout b hb
          · split at h
            · cases h
            · split at h
              · cases h
              · split at h
                · cases h
                · cases h
                  rename_i xavg vavg havg xfix vfix hfix xpn vpn hpn
                  intro b hb
                  have hbb := fix_bounding_box_bonds _ _ _ hfix
                  simp only [] at hb
                  rw [hbb] at hb
                  exact gcm_bonds_whitelist hid gout hgout b hb

theorem add_missing_nodes (f f1 : Frag) (h : add_missing_bounding_box f = .ok f1) :
    f1.nodes = f.nodes := by
  simp only [add_missing_bounding_box, Bind.bind, Except.bind] at h
  split at h
  · cases h
    rfl
  · split at h
    · cases h
    · cases h
      rfl

theorem processFrag_single_implies (st : Style) (hc : Bool) (bl : ℝ) (f f' : Frag)
    (h : processFrag st hc bl f = .ok (f', true)) : singleAtomFragment f := by
  simp only [processFrag, Bind.bind, Except.bind] at h
  split at h
  · cases h
  · split at h
    · cases h
    · split at h
      · cases h
      · rename_i v2 hid fb hfb gout hgout
        have hn : hid.nodes = f.nodes := add_missing_nodes f hid fb
        simp only [get_coords_and_mapping, Bind.bind, Except.bind] at hgout
        split at hgout
        · cases hgout
        · split at hgout
          · cases hgout
          · cases hgout
            rename_i xcn cn hcn xbb bb2 hbbs
            rw [hn] at hcn
            split at h
            · cases h
            · split at h
              · rename_i hlen1
                refine ⟨cn, hcn, ?_⟩
                simpa using hlen1
              · split at h
                · cases h
                · split at h
                  · cases h
                  · split at h
                    · cases h
                    · cases h

theorem processFrags_whitelist (st : Style) (hc : Bool) (bl : ℝ) :
    ∀ (fs : List Frag) (r : List Frag × Bool), processFrags st hc bl fs = .ok r →
      (∀ f ∈ fs, ¬ singleAtomFragment f) →
      ∀ f' ∈ r.1, ∀ b ∈ f'.bonds, ∀ a ∈ b.attrs, a.1 ∈ bond_attributes := by
  intro fs
  induction fs with
  | nil =>
      intro r h hs f' hf'
      simp only [processFrags] at h
      cases h
      simp at hf'
  | cons fhd ftl ih =>
      intro r h hs f' hf'
      simp only [processFrags, Bind.bind, Except.bind] at h
      split at h
      · cases h
      · rename_i pr hpr
        split at h
        · cases h
          rename_i hsingle
          rcases pr with ⟨f1, single⟩
          have : single = true := by simpa using hsingle
          subst this
          exact absurd (processFrag_single_implies st hc bl fhd f1 hpr)
            (hs fhd (List.mem_cons_self _ _))
        · split at h
          · cases h
          · cases h
            rename_i hnotsingle more hmore
            rcases pr with ⟨f1, single⟩
            rcases List.mem_cons.mp hf' with hhead | htail
            · subst hhead
              exact processFrag_bonds_whitelist st hc bl fhd f' single hpr
            · exact ih more hmore (fun g hg => hs g (List.mem_cons_of_mem _ hg)) f' htail

/-- C2 amended: the whitelist invariant holds for every document in
which no fragment has exactly one atom (as counted by the styler's
node-id mapping): whenever `_apply_style` succeeds on such a document,
every bond element of the result carries only whitelisted attributes.
(The original claim fails when a single-atom fragment precedes another
fragment: the styler returns at the single-atom fragment, see the
counterexample.) -/
theorem C2_bond_whitelist_amended (style : Style) (root out : SDoc)
    (h : CDXMLStyler.apply_style style root = .ok out)
    (hs : ∀ f ∈ root.fragments, ¬ singleAtomFragment f) :
    ∀ f' ∈ out.fragments, ∀ b ∈ f'.bonds, ∀ a ∈ b.attrs, a.1 ∈ bond_attributes := by
  simp only [CDXMLStyler.apply_style] at h
  split at h
  · cases h
  · cases h
  · cases h
  · split at h
    · cases h
    · split at h
      · cases h
      · cases h
      · cases h
        rename_i xr r hr
        intro f' hf'
        exact processFrags_whitelist style _ _ root.fragments _ hr hs f' hf'

/-- C2 witness: applying the amended theorem to the two-atom scaling
document shows the `B` attribute of its styled bond is whitelisted. -/
theorem C2_bond_whitelist_amended_witness : ("B", AVal.str "1").1 ∈ bond_attributes :=
  C2_bond_whitelist_amended acs1996 c6doc c6out apply_style_c6doc
    (by
      intro f hf
      simp only [c6doc, List.mem_singleton] at hf
      subst hf
      rintro ⟨r, hr, hl⟩
      rw [show collectNodes c6frag.nodes 0 [] =
        .ok ([(0, 0), (10, 0)], [(1, 0), (2, 1)], []) from rfl] at hr
      cases hr
      simp at hl)
    c6fragOut (by simp [c6out])
    ⟨[("id", .str "3"), ("B", .str "1"), ("E", .str "2")]⟩ (by simp [c6fragOut])
    ("B", AVal.str "1") (by simp)


end Theorems
